import Mathlib

/-!
Verification of the bingo game session layer.

The development shallowly embeds the game model (`backend/models/Game.js`),
the REST game routes, the two socket handlers, and the board generator.
Numbers carried by game actions are modelled as `Int` (JavaScript numbers in
the integral range used by the game); user ids and timestamps (milliseconds)
are modelled as `Nat`.  Handlers return `Except Err _`; an `error` result
mirrors the early `return` in the source, which happens before any save, so
an error result means the stored session is unchanged.
-/

namespace Bingo

/-- Session status, from the `status` enum of the game schema. -/
inductive Status
  | pending
  | active
  | completed
  | cancelled
deriving DecidableEq

/-- Turn pointer, from the `gameData.currentTurn` enum. -/
inductive Turn
  | creator
  | opponent
deriving DecidableEq

/-- A board cell is either the FREE sentinel string or a number. -/
inductive Cell
  | free
  | num (n : Int)
deriving DecidableEq

/-- The game document, restricted to the fields the verified operations read
or write (schema of `backend/models/Game.js`). -/
structure Game where
  creator : Nat
  opponent : Nat
  status : Status
  winner : Option Nat
  creatorBoard : List (List Cell)
  opponentBoard : List (List Cell)
  calledNumbers : List Int
  currentTurn : Turn
  creatorCompletedLines : Nat
  opponentCompletedLines : Nat
  lastCalledNumber : Option Int
  lastCalledBy : Option Nat
  requiredLines : Nat
  invitationAccepted : Bool
  invitationExpiresAt : Nat
  startedAt : Option Nat
  completedAt : Option Nat
  duration : Option Nat
deriving DecidableEq

/-- `gameSchema.methods.isExpired`: pending and past the invitation expiry. -/
def isExpired (g : Game) (now : Nat) : Bool :=
  g.status == Status.pending && decide (g.invitationExpiresAt < now)

/-- `gameSchema.methods.canJoin`. -/
def canJoin (g : Game) (userId : Nat) (now : Nat) : Bool :=
  g.status == Status.pending && !(isExpired g now) &&
    (g.creator == userId || g.opponent == userId)

/-- `gameSchema.methods.isUserTurn`. -/
def isUserTurn (g : Game) (userId : Nat) : Bool :=
  if g.status != Status.active then false
  else
    let isCreator := g.creator == userId
    let isOpponent := g.opponent == userId
    if isCreator && g.currentTurn == Turn.creator then true
    else if isOpponent && g.currentTurn == Turn.opponent then true
    else false

/-- The turn switch in `callNumber`:
`currentTurn === 'creator' ? 'opponent' : 'creator'`. -/
def flipTurn (t : Turn) : Turn :=
  if t == Turn.creator then Turn.opponent else Turn.creator

/-- `gameSchema.methods.callNumber`: on a fresh number, append it, record the
last call, switch the turn and return true; on a duplicate return false
without touching the document. -/
def callNumber (g : Game) (number : Int) (calledBy : Nat) : Bool × Game :=
  if !(g.calledNumbers.contains number) then
    (true,
      { g with
        calledNumbers := g.calledNumbers ++ [number]
        lastCalledNumber := some number
        lastCalledBy := some calledBy
        currentTurn := flipTurn g.currentTurn })
  else
    (false, g)

/-- Cell satisfaction in `gameSchema.methods.checkWinCondition`:
`num === 'FREE' || calledNumbers.includes(num)`. -/
def cellSat (calledNumbers : List Int) (c : Cell) : Bool :=
  match c with
  | Cell.free => true
  | Cell.num n => calledNumbers.contains n

/-- `board[i][j]` access; out-of-range reads never occur on the 5 by 5 boards
the statements are about. -/
def cellAt (board : List (List Cell)) (i j : Nat) : Cell :=
  (board.getD i []).getD j (Cell.num 0)

/-- The completed-line counter inside `checkWinCondition`: five rows, five
columns, the main diagonal and the anti-diagonal. -/
def completedLinesCount (board : List (List Cell)) (calledNumbers : List Int) : Nat :=
  ((List.range 5).filter fun i => (board.getD i []).all (cellSat calledNumbers)).length
  + ((List.range 5).filter fun j =>
      board.all fun row => cellSat calledNumbers (row.getD j (Cell.num 0))).length
  + (if (cellSat calledNumbers (cellAt board 0 0) &&
         cellSat calledNumbers (cellAt board 1 1) &&
         cellSat calledNumbers (cellAt board 2 2) &&
         cellSat calledNumbers (cellAt board 3 3) &&
         cellSat calledNumbers (cellAt board 4 4)) then 1 else 0)
  + (if (cellSat calledNumbers (cellAt board 0 4) &&
         cellSat calledNumbers (cellAt board 1 3) &&
         cellSat calledNumbers (cellAt board 2 2) &&
         cellSat calledNumbers (cellAt board 3 1) &&
         cellSat calledNumbers (cellAt board 4 0)) then 1 else 0)

/-- `gameSchema.methods.checkWinCondition`: completed lines reach
`requiredLines`. -/
def checkWinCondition (g : Game) (board : List (List Cell))
    (calledNumbers : List Int) : Bool :=
  decide (completedLinesCount board calledNumbers ≥ g.requiredLines)

/-- `gameSchema.methods.endGame`; `Math.round` of the nonnegative
millisecond difference in minutes. -/
def endGame (g : Game) (winnerId : Nat) (now : Nat) : Game :=
  { g with
    status := Status.completed
    winner := some winnerId
    completedAt := some now
    duration :=
      match g.startedAt with
      | some s => some ((now - s + 30000) / 60000)
      | none => g.duration }

/-- The pre-save middleware: an expired, still pending document is cancelled
at save time. -/
def preSave (g : Game) (now : Nat) : Game :=
  if isExpired g now && g.status == Status.pending then
    { g with status := Status.cancelled }
  else g

/-- Scoped error replies of the routes and socket handlers. -/
inductive Err
  | notFound
  | notActive
  | notYourTurn
  | invalidNumber
  | alreadyCalled
  | cannotJoin
  | notAuthorized
  | notPending
  | cannotCancel
  | conflict
  | notInGame
deriving DecidableEq

/-- The REST join route (`POST /:gameId/join`): `canJoin` gate, then set
active, mark the invitation accepted, stamp `startedAt` and save. -/
def joinRoute (g : Game) (userId : Nat) (now : Nat) : Except Err Game :=
  if canJoin g userId now then
    Except.ok (preSave
      { g with
        status := Status.active
        invitationAccepted := true
        startedAt := some now } now)
  else Except.error Err.cannotJoin

/-- The REST call-number route (`POST /:gameId/call-number`): active check,
turn check, range check 1 to 25 (the route also rejects a payload whose
`number` is not of number type, which the `Int` argument cannot encode),
then `callNumber`, recomputation of both completed-line fields, winner
determination with the creator checked first, `endGame` on a win, and save.
Returns the saved game and the winner reported in the response. -/
def callNumberRoute (g : Game) (userId : Nat) (number : Int) (now : Nat) :
    Except Err (Game × Option Nat) :=
  if g.status != Status.active then Except.error Err.notActive
  else if !(isUserTurn g userId) then Except.error Err.notYourTurn
  else if number < 1 ∨ number > 25 then Except.error Err.invalidNumber
  else
    match callNumber g number userId with
    | (false, _) => Except.error Err.alreadyCalled
    | (true, g1) =>
      let creatorLines : Nat :=
        if checkWinCondition g1 g1.creatorBoard g1.calledNumbers then 5 else 0
      let opponentLines : Nat :=
        if checkWinCondition g1 g1.opponentBoard g1.calledNumbers then 5 else 0
      let g2 := { g1 with
        creatorCompletedLines := creatorLines
        opponentCompletedLines := opponentLines }
      let winner : Option Nat :=
        if creatorLines ≥ 5 then some g2.creator
        else if opponentLines ≥ 5 then some g2.opponent
        else none
      let g3 := match winner with
        | some w => endGame g2 w now
        | none => g2
      Except.ok (preSave g3 now, winner)

/-- The REST decline route (`POST /:gameId/decline`). -/
def declineRoute (g : Game) (userId : Nat) (now : Nat) : Except Err Game :=
  if g.opponent != userId then Except.error Err.notAuthorized
  else if g.status != Status.pending then Except.error Err.notPending
  else Except.ok (preSave { g with status := Status.cancelled } now)

/-- The REST cancel route (`POST /:gameId/cancel`): creator only, any status
except completed. -/
def cancelRoute (g : Game) (userId : Nat) (now : Nat) : Except Err Game :=
  if g.creator != userId then Except.error Err.notAuthorized
  else if g.status == Status.completed then Except.error Err.cannotCancel
  else Except.ok (preSave { g with status := Status.cancelled } now)

/-- The `respond-to-invitation` socket handler: it checks only that the
actor is the designated opponent, then sets the status to active (accept)
or cancelled (decline) and saves, without reading the current status or the
invitation expiry. -/
def respondToInvitation (g : Game) (userId : Nat) (accepted : Bool)
    (now : Nat) : Except Err Game :=
  if g.opponent != userId then Except.error Err.notAuthorized
  else if accepted then
    Except.ok (preSave
      { g with
        status := Status.active
        invitationAccepted := true
        startedAt := some now } now)
  else
    Except.ok (preSave { g with status := Status.cancelled } now)

/-- The `call-number` socket handler: active check, turn check, then
`callNumber` and save; no range validation on this path. -/
def callNumberHandler (g : Game) (userId : Nat) (number : Int) (now : Nat) :
    Except Err Game :=
  if g.status != Status.active then Except.error Err.notActive
  else if !(isUserTurn g userId) then Except.error Err.notYourTurn
  else
    match callNumber g number userId with
    | (false, _) => Except.error Err.alreadyCalled
    | (true, g1) => Except.ok (preSave g1 now)

/-- A fresh game document as built by the create route: pending, shared
board on both sides, empty history, creator to move, 24-hour invitation
window. -/
def newGame (creatorId opponentId : Nat) (board : List (List Cell))
    (now : Nat) : Game :=
  { creator := creatorId
    opponent := opponentId
    status := Status.pending
    winner := none
    creatorBoard := board
    opponentBoard := board
    calledNumbers := []
    currentTurn := Turn.creator
    creatorCompletedLines := 0
    opponentCompletedLines := 0
    lastCalledNumber := none
    lastCalledBy := none
    requiredLines := 5
    invitationAccepted := false
    invitationExpiresAt := now + 24 * 60 * 60 * 1000
    startedAt := none
    completedAt := none
    duration := none }

/-- The create route (`POST /`), multiplayer case with an existing
opponent: it refuses with a conflict reply when some game between the two
users, in either order, is still pending or active; otherwise it stores a
new pending game with a shared generated board. -/
def createGameRoute (games : List Game) (creatorId opponentId : Nat)
    (board : List (List Cell)) (now : Nat) : Except Err (List Game) :=
  if games.any fun g =>
      ((g.creator == creatorId && g.opponent == opponentId) ||
       (g.creator == opponentId && g.opponent == creatorId)) &&
      (g.status == Status.pending || g.status == Status.active) then
    Except.error Err.conflict
  else
    Except.ok (games ++ [newGame creatorId opponentId board now])

/-- Cell satisfaction on the realtime win-check path: the helper functions
there test `calledNumbers.includes(num)` with no FREE case, and a numeric
called list never contains the FREE sentinel string, so a FREE cell is
never satisfied on this path. -/
def rtCellSat (calledNumbers : List Int) (c : Cell) : Bool :=
  match c with
  | Cell.free => false
  | Cell.num n => calledNumbers.contains n

/-- `checkLineWin` of the realtime gateway: some full row or full column. -/
def checkLineWin (board : List (List Cell)) (calledNumbers : List Int) : Bool :=
  ((List.range 5).any fun i => (board.getD i []).all (rtCellSat calledNumbers)) ||
  ((List.range 5).any fun j =>
    board.all fun row => rtCellSat calledNumbers (row.getD j (Cell.num 0)))

/-- `checkFullWin` of the realtime gateway. -/
def checkFullWin (board : List (List Cell)) (calledNumbers : List Int) : Bool :=
  board.all fun row => row.all (rtCellSat calledNumbers)

/-- `checkCornersWin` of the realtime gateway. -/
def checkCornersWin (board : List (List Cell)) (calledNumbers : List Int) : Bool :=
  [cellAt board 0 0, cellAt board 0 4,
   cellAt board 4 0, cellAt board 4 4].all (rtCellSat calledNumbers)

/-- `checkDiagonalWin` of the realtime gateway. -/
def checkDiagonalWin (board : List (List Cell)) (calledNumbers : List Int) : Bool :=
  ([cellAt board 0 0, cellAt board 1 1, cellAt board 2 2,
    cellAt board 3 3, cellAt board 4 4].all (rtCellSat calledNumbers)) ||
  ([cellAt board 0 4, cellAt board 1 3, cellAt board 2 2,
    cellAt board 3 1, cellAt board 4 0].all (rtCellSat calledNumbers))

/-- The win patterns dispatched by the realtime `checkWinCondition` switch
(an unrecognised pattern string falls through to the line check). -/
inductive Pattern
  | line
  | full
  | corners
  | diagonal
deriving DecidableEq

/-- The realtime `checkWinCondition` dispatcher. -/
def checkWinConditionRT (board : List (List Cell)) (calledNumbers : List Int) :
    Pattern → Bool
  | Pattern.line => checkLineWin board calledNumbers
  | Pattern.full => checkFullWin board calledNumbers
  | Pattern.corners => checkCornersWin board calledNumbers
  | Pattern.diagonal => checkDiagonalWin board calledNumbers

/-- Modelled from the spec: the room-based game document read by the
`callNumber` socket handler (players array, called-number records) is not
under src, only the handler is; fields follow the handler accesses together
with the spec's Session data model, whose turn pointer `currentTurnPlayer`
names the participant who may legally call next.  The handler itself never
reads the turn pointer. -/
structure RoomGame where
  status : Status
  players : List Nat
  calledNumbers : List (Int × Nat)
  currentTurnPlayer : Option Nat
deriving DecidableEq

/-- The `callNumber` socket handler: range check 1 to 75 first, then game
status, room membership and a duplicate check over the called records; on
success it appends the (number, caller) record and saves.  No turn check
appears anywhere on this path. -/
def rtCallNumber (g : RoomGame) (userId : Nat) (number : Int) :
    Except Err RoomGame :=
  if number < 1 ∨ number > 75 then Except.error Err.invalidNumber
  else if g.status != Status.active then Except.error Err.notActive
  else if !(g.players.contains userId) then Except.error Err.notInGame
  else if g.calledNumbers.any fun cn => cn.1 == number then
    Except.error Err.alreadyCalled
  else
    Except.ok { g with calledNumbers := g.calledNumbers ++ [(number, userId)] }

/-- The pool built by `generateBingoBoard`: 1 to 25 with 13 left out for
the FREE space. -/
def allNumbers : List Int :=
  ((List.range 25).map fun i => (i : Int) + 1).filter fun n => n != 13

/-- One Fisher-Yates swap `[a[i], a[j]] = [a[j], a[i]]`. -/
def listSwap (l : List Int) (i j : Nat) : List Int :=
  (l.set i (l.getD j 0)).set j (l.getD i 0)

/-- The shuffle loop of `generateBingoBoard`, running the index from `k`
down to 1; the random draw `Math.floor(Math.random() * (i + 1))` is
modelled by an arbitrary function reduced into the range 0 to i. -/
def shuffleAux (rand : Nat → Nat) : List Int → Nat → List Int
  | l, 0 => l
  | l, k + 1 => shuffleAux rand (listSwap l (k + 1) (rand (k + 1) % (k + 2))) k

/-- The shuffled pool: 24 numbers, top index 23. -/
def shuffledNumbers (rand : Nat → Nat) : List Int :=
  shuffleAux rand allNumbers 23

/-- `generateBingoBoard`: a 5 by 5 row-major fill of the shuffled pool with
the FREE sentinel at the center; the running `numberIndex` equals the
row-major position before the center and lags one behind it after. -/
def generateBingoBoard (rand : Nat → Nat) : List (List Cell) :=
  (List.range 5).map fun i => (List.range 5).map fun j =>
    if i = 2 ∧ j = 2 then Cell.free
    else Cell.num ((shuffledNumbers rand).getD
      (if 5 * i + j < 12 then 5 * i + j else 5 * i + j - 1) 0)

section ConcreteSessions

/-- A fixed 5 by 5 board with the FREE center, used in concrete scenarios. -/
def stdBoard : List (List Cell) :=
  [[Cell.num 1, Cell.num 2, Cell.num 3, Cell.num 4, Cell.num 5],
   [Cell.num 6, Cell.num 7, Cell.num 8, Cell.num 9, Cell.num 10],
   [Cell.num 11, Cell.num 12, Cell.free, Cell.num 14, Cell.num 15],
   [Cell.num 16, Cell.num 17, Cell.num 18, Cell.num 19, Cell.num 20],
   [Cell.num 21, Cell.num 22, Cell.num 23, Cell.num 24, Cell.num 25]]

/-- A pending two-player session with an empty history, used as a base for
concrete scenarios. -/
def basePending : Game :=
  { creator := 1
    opponent := 2
    status := Status.pending
    winner := none
    creatorBoard := stdBoard
    opponentBoard := stdBoard
    calledNumbers := []
    currentTurn := Turn.creator
    creatorCompletedLines := 0
    opponentCompletedLines := 0
    lastCalledNumber := none
    lastCalledBy := none
    requiredLines := 5
    invitationAccepted := false
    invitationExpiresAt := 1000000
    startedAt := none
    completedAt := none
    duration := none }

/-- An active session whose history already holds the number 7. -/
def gDup : Game :=
  { basePending with
    status := Status.active
    invitationAccepted := true
    startedAt := some 0
    calledNumbers := [7] }

/-- An active session with an empty history. -/
def gFresh : Game :=
  { basePending with
    status := Status.active
    invitationAccepted := true
    startedAt := some 0 }

end ConcreteSessions

/-- C1: calling a number that is already in the history returns false and
leaves the session untouched (history, last-call fields and turn pointer
included), and the history therefore never holds a number twice. -/
theorem callNumber_duplicate_noop (g : Game) (number : Int) (calledBy : Nat) :
    (g.calledNumbers.contains number = true →
      callNumber g number calledBy = (false, g)) ∧
    (g.calledNumbers.Nodup →
      ((callNumber g number calledBy).2).calledNumbers.Nodup) := by
  constructor
  · intro h
    have hmem : number ∈ g.calledNumbers := by simpa using h
    simp [callNumber, hmem]
  · intro h
    by_cases hmem : number ∈ g.calledNumbers
    · simp [callNumber, hmem, h]
    · simp [callNumber, hmem]
      exact List.Nodup.append h (List.nodup_singleton _)
        (by simpa [List.disjoint_singleton] using hmem)

/-- Concrete run of `callNumber_duplicate_noop` on a session whose history
is `[7]`. -/
theorem callNumber_duplicate_noop_witness :
    callNumber gDup 7 1 = (false, gDup) ∧
    ((callNumber gDup 7 1).2).calledNumbers.Nodup :=
  ⟨(callNumber_duplicate_noop gDup 7 1).1 (by decide),
   (callNumber_duplicate_noop gDup 7 1).2 (by decide)⟩

/-- C2: calling a fresh number returns true, appends it to the history,
records it as the last called number with its caller, and flips the turn
pointer to the other participant. -/
theorem callNumber_fresh_records (g : Game) (number : Int) (calledBy : Nat)
    (h : g.calledNumbers.contains number = false) :
    (callNumber g number calledBy).1 = true ∧
    (callNumber g number calledBy).2.calledNumbers =
      g.calledNumbers ++ [number] ∧
    (callNumber g number calledBy).2.lastCalledNumber = some number ∧
    (callNumber g number calledBy).2.lastCalledBy = some calledBy ∧
    (g.currentTurn = Turn.creator →
      (callNumber g number calledBy).2.currentTurn = Turn.opponent) ∧
    (g.currentTurn = Turn.opponent →
      (callNumber g number calledBy).2.currentTurn = Turn.creator) := by
  have hmem : number ∉ g.calledNumbers := by simpa using h
  refine ⟨?_, ?_, ?_, ?_, ?_, ?_⟩
  · simp [callNumber, hmem]
  · simp [callNumber, hmem]
  · simp [callNumber, hmem]
  · simp [callNumber, hmem]
  · intro ht
    simp [callNumber, hmem, flipTurn, ht]
  · intro ht
    simp [callNumber, hmem, flipTurn, ht]

/-- Concrete run of `callNumber_fresh_records`: calling 7 on an empty
history appends it and hands the turn to the opponent. -/
theorem callNumber_fresh_records_witness :
    (callNumber gFresh 7 1).1 = true ∧
    (callNumber gFresh 7 1).2.calledNumbers = gFresh.calledNumbers ++ [7] ∧
    (callNumber gFresh 7 1).2.lastCalledNumber = some 7 ∧
    (callNumber gFresh 7 1).2.lastCalledBy = some 1 ∧
    (gFresh.currentTurn = Turn.creator →
      (callNumber gFresh 7 1).2.currentTurn = Turn.opponent) ∧
    (gFresh.currentTurn = Turn.opponent →
      (callNumber gFresh 7 1).2.currentTurn = Turn.creator) :=
  callNumber_fresh_records gFresh 7 1 (by decide)

/-- C6: creating a game while some game between the same two users, in
either order, is still pending or active fails with the conflict reply, and
the stored collection is left as it was (no new session). -/
theorem createGame_conflict (games : List Game) (creatorId opponentId : Nat)
    (board : List (List Cell)) (now : Nat)
    (h : ∃ g ∈ games,
      ((g.creator = creatorId ∧ g.opponent = opponentId) ∨
       (g.creator = opponentId ∧ g.opponent = creatorId)) ∧
      (g.status = Status.pending ∨ g.status = Status.active)) :
    createGameRoute games creatorId opponentId board now =
      Except.error Err.conflict := by
  obtain ⟨g, hg, hpair, hstat⟩ := h
  have hany : (games.any fun g =>
      ((g.creator == creatorId && g.opponent == opponentId) ||
       (g.creator == opponentId && g.opponent == creatorId)) &&
      (g.status == Status.pending || g.status == Status.active)) = true := by
    refine List.any_eq_true.mpr ⟨g, hg, ?_⟩
    rcases hpair with ⟨h1, h2⟩ | ⟨h1, h2⟩ <;>
      rcases hstat with h3 | h3 <;> simp [h1, h2, h3]
  simp [createGameRoute, hany]

/-- Concrete run of `createGame_conflict`: with a pending session between
users 1 and 2 on file, creating a game of 2 against 1 is refused. -/
theorem createGame_conflict_witness :
    createGameRoute [basePending] 2 1 [] 0 = Except.error Err.conflict :=
  createGame_conflict [basePending] 2 1 [] 0 (by decide)

/-- A successful `callNumber` changes only the history, the last-call fields
and the turn pointer. -/
lemma callNumber_true_fields {g g1 : Game} {n : Int} {u : Nat}
    (h : callNumber g n u = (true, g1)) :
    g1.creator = g.creator ∧ g1.opponent = g.opponent ∧
    g1.status = g.status ∧ g1.creatorBoard = g.creatorBoard ∧
    g1.opponentBoard = g.opponentBoard ∧
    g1.requiredLines = g.requiredLines ∧
    g1.calledNumbers = g.calledNumbers ++ [n] := by
  by_cases hmem : n ∈ g.calledNumbers
  · simp [callNumber, hmem] at h
  · simp [callNumber, hmem] at h
    subst h
    exact ⟨rfl, rfl, rfl, rfl, rfl, rfl, rfl⟩

/-- `preSave` never touches a document that is not pending. -/
lemma preSave_not_pending {g : Game} (now : Nat)
    (h : g.status ≠ Status.pending) : preSave g now = g := by
  simp [preSave, isExpired, h]

/-- The branch structure of the call-number route, extracted once: a
successful reply passes the status, turn and range gates, calls the number,
and reports the creator as winner when the creator's board wins, else the
opponent when the opponent's board wins, ending the game in that case. -/
lemma callNumberRoute_ok_elim {g : Game} {u : Nat} {n : Int} {now : Nat}
    {g' : Game} {w : Option Nat}
    (h : callNumberRoute g u n now = Except.ok (g', w)) :
    ∃ g1, callNumber g n u = (true, g1) ∧
      g.status = Status.active ∧ isUserTurn g u = true ∧ 1 ≤ n ∧ n ≤ 25 ∧
      w = (if checkWinCondition g1 g1.creatorBoard g1.calledNumbers
            then some g1.creator
            else if checkWinCondition g1 g1.opponentBoard g1.calledNumbers
            then some g1.opponent else none) ∧
      g' = preSave
        (match (if checkWinCondition g1 g1.creatorBoard g1.calledNumbers
                then some g1.creator
                else if checkWinCondition g1 g1.opponentBoard g1.calledNumbers
                then some g1.opponent else none) with
          | some x => endGame
              { g1 with
                creatorCompletedLines :=
                  if checkWinCondition g1 g1.creatorBoard g1.calledNumbers
                  then 5 else 0
                opponentCompletedLines :=
                  if checkWinCondition g1 g1.opponentBoard g1.calledNumbers
                  then 5 else 0 } x now
          | none =>
              { g1 with
                creatorCompletedLines :=
                  if checkWinCondition g1 g1.creatorBoard g1.calledNumbers
                  then 5 else 0
                opponentCompletedLines :=
                  if checkWinCondition g1 g1.opponentBoard g1.calledNumbers
                  then 5 else 0 }) now := by
  simp only [callNumberRoute] at h
  split at h
  · exact absurd h (by simp)
  split at h
  · exact absurd h (by simp)
  split at h
  · exact absurd h (by simp)
  rename_i hs ht hr
  split at h
  · exact absurd h (by simp)
  rename_i g1 heq
  refine ⟨g1, heq, ?_, ?_, ?_, ?_, ?_⟩
  · revert hs
    cases g.status <;> simp
  · revert ht
    cases hu : isUserTurn g u <;> simp
  · omega
  · omega
  · by_cases hcw : checkWinCondition g1 g1.creatorBoard g1.calledNumbers <;>
      by_cases how : checkWinCondition g1 g1.opponentBoard g1.calledNumbers <;>
      simp [hcw, how] at h ⊢ <;>
      exact ⟨h.2.symm, h.1.symm⟩

/-- A room-based session of the realtime gateway: players 1 and 2, active,
empty call history, with the spec turn pointer on player 1. -/
def roomBase : RoomGame :=
  { status := Status.active
    players := [1, 2]
    calledNumbers := []
    currentTurnPlayer := some 1 }

/-- C4 (amended): the REST call-number route and the `call-number` socket
handler reject a call on an active session whenever `isUserTurn` fails,
without saving; the `callNumber` socket handler, however, performs no turn
check: any room member's call with a fresh in-range number is accepted and
appended, whoever holds the turn. -/
theorem turn_enforcement :
    (∀ (g : Game) (u : Nat) (n : Int) (now : Nat),
      g.status = Status.active → isUserTurn g u = false →
      callNumberRoute g u n now = Except.error Err.notYourTurn) ∧
    (∀ (g : Game) (u : Nat) (n : Int) (now : Nat),
      g.status = Status.active → isUserTurn g u = false →
      callNumberHandler g u n now = Except.error Err.notYourTurn) ∧
    (∀ (g : RoomGame) (u : Nat) (n : Int),
      1 ≤ n → n ≤ 75 → g.status = Status.active →
      g.players.contains u = true →
      (g.calledNumbers.any fun cn => cn.1 == n) = false →
      rtCallNumber g u n =
        Except.ok { g with calledNumbers := g.calledNumbers ++ [(n, u)] }) := by
  refine ⟨?_, ?_, ?_⟩
  · intro g u n now h1 h2
    simp [callNumberRoute, h1, h2]
  · intro g u n now h1 h2
    simp [callNumberHandler, h1, h2]
  · intro g u n hlo hhi h1 h2 h3
    have hr : ¬(n < 1 ∨ n > 75) := by omega
    have hmem : u ∈ g.players := by simpa using h2
    simp [rtCallNumber, hr, h1, hmem, h3]

/-- Concrete run of `turn_enforcement`: with the turn on the creator, a
call by the opponent is rejected by the route and the `call-number`
handler, while the `callNumber` handler accepts a member's call. -/
theorem turn_enforcement_witness :
    callNumberRoute gFresh 2 9 50 = Except.error Err.notYourTurn ∧
    callNumberHandler gFresh 2 9 50 = Except.error Err.notYourTurn ∧
    rtCallNumber roomBase 1 9 =
      Except.ok { roomBase with calledNumbers := [(9, 1)] } :=
  ⟨turn_enforcement.1 gFresh 2 9 50 (by decide) (by decide),
   turn_enforcement.2.1 gFresh 2 9 50 (by decide) (by decide),
   turn_enforcement.2.2 roomBase 1 9 (by decide) (by decide) (by decide)
     (by decide) (by decide)⟩

/-- C4 is false as stated: on the `callNumber` socket handler, player 2
calls while the turn pointer designates player 1, yet the call succeeds and
the session history is mutated. -/
theorem turn_enforcement_counterexample :
    roomBase.currentTurnPlayer = some 1 ∧ (2 : Nat) ≠ 1 ∧
    roomBase.players.contains 2 = true ∧
    rtCallNumber roomBase 2 7 =
      Except.ok { roomBase with calledNumbers := [(7, 2)] } ∧
    ({ roomBase with calledNumbers := [(7, 2)] } : RoomGame).calledNumbers ≠
      roomBase.calledNumbers :=
  ⟨rfl, by decide, by decide, rfl, by decide⟩

/-- C9: the REST call-number route accepts a number only when it lies in
1 to 25, and the realtime `callNumber` handler only when it lies in 1 to 75;
each path answers an out-of-range number (reached past its earlier gates)
with the invalid-number reply, before any mutation. -/
theorem number_range_spec :
    (∀ (g : Game) (u : Nat) (n : Int) (now : Nat) (g' : Game)
        (w : Option Nat),
      callNumberRoute g u n now = Except.ok (g', w) → 1 ≤ n ∧ n ≤ 25) ∧
    (∀ (g : Game) (u : Nat) (n : Int) (now : Nat),
      (n < 1 ∨ n > 25) → g.status = Status.active → isUserTurn g u = true →
      callNumberRoute g u n now = Except.error Err.invalidNumber) ∧
    (∀ (g : RoomGame) (u : Nat) (n : Int) (g' : RoomGame),
      rtCallNumber g u n = Except.ok g' → 1 ≤ n ∧ n ≤ 75) ∧
    (∀ (g : RoomGame) (u : Nat) (n : Int),
      (n < 1 ∨ n > 75) → rtCallNumber g u n = Except.error Err.invalidNumber) := by
  refine ⟨?_, ?_, ?_, ?_⟩
  · intro g u n now g' w h
    obtain ⟨g1, _, _, _, hlo, hhi, _⟩ := callNumberRoute_ok_elim h
    exact ⟨hlo, hhi⟩
  · intro g u n now hr h1 h2
    simp [callNumberRoute, h1, h2, hr]
  · intro g u n g' h
    simp only [rtCallNumber] at h
    split at h
    · exact absurd h (by simp)
    rename_i hr
    constructor <;> omega
  · intro g u n hr
    simp [rtCallNumber, hr]

/-- Concrete run of `number_range_spec`: 26 is refused by the route, 80 by
the realtime handler, while accepted calls stay in range. -/
theorem number_range_spec_witness :
    (1 ≤ (7 : Int) ∧ (7 : Int) ≤ 25) ∧
    callNumberRoute gFresh 1 26 50 = Except.error Err.invalidNumber ∧
    (1 ≤ (9 : Int) ∧ (9 : Int) ≤ 75) ∧
    rtCallNumber roomBase 1 80 = Except.error Err.invalidNumber :=
  ⟨number_range_spec.1 gFresh 1 7 50
      { gFresh with
        calledNumbers := [7]
        lastCalledNumber := some 7
        lastCalledBy := some 1
        currentTurn := Turn.opponent } none rfl,
   number_range_spec.2.1 gFresh 1 26 50 (by decide) (by decide) (by decide),
   number_range_spec.2.2.1 roomBase 1 9
     { roomBase with calledNumbers := [(9, 1)] } rfl,
   number_range_spec.2.2.2 roomBase 1 80 (by decide)⟩

/-- A completed session between users 1 and 2. -/
def gCompleted : Game :=
  { basePending with
    status := Status.completed
    winner := some 1
    invitationAccepted := true
    startedAt := some 0
    completedAt := some 60000
    duration := some 1 }

/-- C5 (amended): the join, decline, cancel and call-number operations and
the save middleware respect pending to active or cancelled, active to
completed or cancelled (creator cancel), and never leave a terminal status;
the respond-to-invitation handler, however, checks only that the actor is
the opponent and moves a session of any status, terminal included, to
active on accept or cancelled on decline. -/
theorem status_transition_spec :
    (∀ (g : Game) (u : Nat) (now : Nat) (g' : Game),
      joinRoute g u now = Except.ok g' →
      g.status = Status.pending ∧ g'.status = Status.active) ∧
    (∀ (g : Game) (u : Nat) (now : Nat) (g' : Game),
      declineRoute g u now = Except.ok g' →
      g.status = Status.pending ∧ g'.status = Status.cancelled) ∧
    (∀ (g : Game) (u : Nat) (now : Nat) (g' : Game),
      cancelRoute g u now = Except.ok g' →
      g.status ≠ Status.completed ∧ g'.status = Status.cancelled) ∧
    (∀ (g : Game) (u : Nat) (n : Int) (now : Nat) (g' : Game)
        (w : Option Nat),
      callNumberRoute g u n now = Except.ok (g', w) →
      g.status = Status.active ∧
        (g'.status = Status.active ∨ g'.status = Status.completed)) ∧
    (∀ (g : Game) (u : Nat) (n : Int) (now : Nat) (g' : Game),
      callNumberHandler g u n now = Except.ok g' →
      g.status = Status.active ∧ g'.status = Status.active) ∧
    (∀ (g : Game) (now : Nat),
      g.status ≠ Status.pending → preSave g now = g) ∧
    (∀ (g : Game) (u : Nat) (now : Nat) (g' : Game),
      respondToInvitation g u true now = Except.ok g' →
      g'.status = Status.active) ∧
    (∀ (g : Game) (u : Nat) (now : Nat) (g' : Game),
      respondToInvitation g u false now = Except.ok g' →
      g'.status = Status.cancelled) := by
  refine ⟨?_, ?_, ?_, ?_, ?_, ?_, ?_, ?_⟩
  · intro g u now g' h
    simp only [joinRoute] at h
    split at h
    · rename_i hc
      simp only [Except.ok.injEq] at h
      have hp : g.status = Status.pending := by
        simp only [canJoin, Bool.and_eq_true, beq_iff_eq] at hc
        exact hc.1.1
      subst h
      rw [preSave_not_pending now (by simp)]
      exact ⟨hp, rfl⟩
    · exact absurd h (by simp)
  · intro g u now g' h
    simp only [declineRoute] at h
    split at h
    · exact absurd h (by simp)
    split at h
    · exact absurd h (by simp)
    rename_i hp
    simp only [Except.ok.injEq] at h
    subst h
    rw [preSave_not_pending now (by simp)]
    constructor
    · revert hp
      cases g.status <;> simp
    · rfl
  · intro g u now g' h
    simp only [cancelRoute] at h
    split at h
    · exact absurd h (by simp)
    split at h
    · exact absurd h (by simp)
    rename_i hs
    simp only [Except.ok.injEq] at h
    subst h
    rw [preSave_not_pending now (by simp)]
    constructor
    · revert hs
      cases g.status <;> simp
    · rfl
  · intro g u n now g' w h
    obtain ⟨g1, hcall, hs, -, -, -, -, hg'⟩ := callNumberRoute_ok_elim h
    have hst : g1.status = Status.active := by
      rw [(callNumber_true_fields hcall).2.2.1, hs]
    refine ⟨hs, ?_⟩
    subst hg'
    by_cases hcw : checkWinCondition g1 g1.creatorBoard g1.calledNumbers
    · right
      simp only [hcw, if_true]
      rw [preSave_not_pending now (by simp [endGame])]
      simp [endGame]
    · by_cases how : checkWinCondition g1 g1.opponentBoard g1.calledNumbers
      · right
        simp only [hcw, how, if_true, if_false]
        rw [preSave_not_pending now (by simp [endGame])]
        simp [endGame]
      · left
        simp only [hcw, how, if_false]
        rw [preSave_not_pending now (by simp [hst])]
        simpa using hst
  · intro g u n now g' h
    simp only [callNumberHandler] at h
    split at h
    · exact absurd h (by simp)
    split at h
    · exact absurd h (by simp)
    rename_i hs ht
    have hsa : g.status = Status.active := by
      revert hs
      cases g.status <;> simp
    split at h
    · exact absurd h (by simp)
    rename_i g1 heq
    simp only [Except.ok.injEq] at h
    subst h
    have hst : g1.status = Status.active := by
      rw [(callNumber_true_fields heq).2.2.1, hsa]
    rw [preSave_not_pending now (by simp [hst])]
    exact ⟨hsa, hst⟩
  · intro g now h
    exact preSave_not_pending now h
  · intro g u now g' h
    by_cases ho : g.opponent = u
    · simp only [respondToInvitation, ho, bne_self_eq_false,
        Bool.false_eq_true, if_false, if_true, Except.ok.injEq] at h
      subst h
      rw [preSave_not_pending now (by simp)]
    · simp [respondToInvitation, ho] at h
  · intro g u now g' h
    by_cases ho : g.opponent = u
    · simp only [respondToInvitation, ho, bne_self_eq_false,
        Bool.false_eq_true, if_false, if_true, Except.ok.injEq] at h
      subst h
      rw [preSave_not_pending now (by simp)]
    · simp [respondToInvitation, ho] at h

/-- C5 is false as stated: the respond-to-invitation handler accepts an
invitation on an already completed session and moves its status back to
active, a transition out of a terminal status. -/
theorem status_transition_counterexample :
    gCompleted.status = Status.completed ∧
    (respondToInvitation gCompleted 2 true 100).toOption.map Game.status =
      some Status.active :=
  ⟨rfl, rfl⟩

/-- Concrete runs of `status_transition_spec` on the scenario sessions. -/
theorem status_transition_witness :
    (basePending.status = Status.pending ∧
      ({ basePending with
          status := Status.active
          invitationAccepted := true
          startedAt := some 50 } : Game).status = Status.active) ∧
    (basePending.status = Status.pending ∧
      ({ basePending with status := Status.cancelled } : Game).status =
        Status.cancelled) ∧
    (basePending.status ≠ Status.completed ∧
      ({ basePending with status := Status.cancelled } : Game).status =
        Status.cancelled) ∧
    (gFresh.status = Status.active ∧
      (({ gFresh with
          calledNumbers := [7]
          lastCalledNumber := some 7
          lastCalledBy := some 1
          currentTurn := Turn.opponent } : Game).status = Status.active ∨
       ({ gFresh with
          calledNumbers := [7]
          lastCalledNumber := some 7
          lastCalledBy := some 1
          currentTurn := Turn.opponent } : Game).status = Status.completed)) ∧
    (gFresh.status = Status.active ∧
      ({ gFresh with
          calledNumbers := [8]
          lastCalledNumber := some 8
          lastCalledBy := some 1
          currentTurn := Turn.opponent } : Game).status = Status.active) ∧
    (preSave gCompleted 100 = gCompleted) ∧
    (({ gCompleted with
        status := Status.active
        invitationAccepted := true
        startedAt := some 100 } : Game).status = Status.active) ∧
    (({ basePending with status := Status.cancelled } : Game).status =
      Status.cancelled) :=
  ⟨status_transition_spec.1 basePending 2 50 _ rfl,
   status_transition_spec.2.1 basePending 2 60 _ rfl,
   status_transition_spec.2.2.1 basePending 1 60 _ rfl,
   status_transition_spec.2.2.2.1 gFresh 1 7 50 _ none rfl,
   status_transition_spec.2.2.2.2.1 gFresh 1 8 50 _ rfl,
   status_transition_spec.2.2.2.2.2.1 gCompleted 100 (by decide),
   status_transition_spec.2.2.2.2.2.2.1 gCompleted 2 100 _ rfl,
   status_transition_spec.2.2.2.2.2.2.2 basePending 2 70 _ rfl⟩

/-- A pending session whose 24-hour invitation window closed at time 10. -/
def gExpired : Game :=
  { basePending with invitationExpiresAt := 10 }

/-- C7 (amended): the join route rejects any accept attempt on an expired
pending session without saving, and saving a still-pending expired session
cancels it through the pre-save middleware; but a mere read does not save,
and the respond-to-invitation handler never checks expiry: an accept by the
opponent activates the session whatever the expiry. -/
theorem expiry_spec :
    (∀ (g : Game) (u : Nat) (now : Nat),
      isExpired g now = true →
      joinRoute g u now = Except.error Err.cannotJoin) ∧
    (∀ (g : Game) (now : Nat),
      g.status = Status.pending → g.invitationExpiresAt < now →
      (preSave g now).status = Status.cancelled) ∧
    (∀ (g : Game) (u : Nat) (now : Nat),
      g.opponent = u →
      (respondToInvitation g u true now).toOption.map Game.status =
        some Status.active) := by
  refine ⟨?_, ?_, ?_⟩
  · intro g u now h
    simp [joinRoute, canJoin, h]
  · intro g now h1 h2
    simp [preSave, isExpired, h1, h2]
  · intro g u now ho
    simp only [respondToInvitation, ho, bne_self_eq_false,
      Bool.false_eq_true, if_false, if_true]
    rw [preSave_not_pending now (by simp)]
    rfl

/-- C7 is false as stated: on an expired pending session, an accept through
the respond-to-invitation handler is not rejected; it activates the
session. -/
theorem expiry_counterexample :
    gExpired.status = Status.pending ∧
    isExpired gExpired 100 = true ∧
    (respondToInvitation gExpired 2 true 100).toOption.map Game.status =
      some Status.active :=
  ⟨rfl, rfl, rfl⟩

/-- Concrete runs of `expiry_spec` on the expired session. -/
theorem expiry_spec_witness :
    joinRoute gExpired 2 100 = Except.error Err.cannotJoin ∧
    (preSave gExpired 100).status = Status.cancelled ∧
    (respondToInvitation gExpired 2 true 100).toOption.map Game.status =
      some Status.active :=
  ⟨expiry_spec.1 gExpired 2 100 (by decide),
   expiry_spec.2.1 gExpired 100 rfl (by decide),
   expiry_spec.2.2 gExpired 2 100 rfl⟩

/-- C3 (amended): the model's evaluation path counts a FREE cell as
satisfied whatever the called numbers, so the board whose center row is the
FREE center plus the called numbers 11, 12, 14, 15 has its center row
counted as a completed line there; the realtime win-check path instead
never satisfies a FREE cell, so the same board does not win under pattern
line on that path. -/
theorem free_cell_spec :
    (∀ calledNumbers : List Int, cellSat calledNumbers Cell.free = true) ∧
    (∀ calledNumbers : List Int, rtCellSat calledNumbers Cell.free = false) ∧
    completedLinesCount stdBoard [11, 12, 14, 15] = 1 ∧
    checkWinConditionRT stdBoard [11, 12, 14, 15] Pattern.line = false := by
  refine ⟨fun _ => rfl, fun _ => rfl, by decide, by decide⟩

/-- C3 is false as stated: the board whose center row is 11, 12, FREE, 14,
15 with exactly those four numbers called does not win under pattern line
on the realtime win-check path. -/
theorem free_cell_counterexample :
    stdBoard.getD 2 [] =
      [Cell.num 11, Cell.num 12, Cell.free, Cell.num 14, Cell.num 15] ∧
    checkWinConditionRT stdBoard [11, 12, 14, 15] Pattern.line = false :=
  ⟨rfl, by decide⟩

/-- The pre-save middleware changes no field the win evaluation reads. -/
lemma preSave_win_eval (g : Game) (now : Nat) :
    checkWinCondition (preSave g now) (preSave g now).creatorBoard
      (preSave g now).calledNumbers =
    checkWinCondition g g.creatorBoard g.calledNumbers := by
  unfold preSave
  split <;> rfl

/-- `endGame` changes no field the win evaluation reads. -/
lemma endGame_win_eval (g : Game) (winnerId : Nat) (now : Nat) :
    checkWinCondition (endGame g winnerId now)
      (endGame g winnerId now).creatorBoard
      (endGame g winnerId now).calledNumbers =
    checkWinCondition g g.creatorBoard g.calledNumbers := rfl

/-- C8 (amended): in the call-number route's winner determination the
creator's board is always evaluated first, so whenever the saved session's
creator board satisfies the win condition — in particular when both boards
do — the reported winner is the creator, whoever made the call. -/
theorem winner_creator_first (g : Game) (u : Nat) (n : Int) (now : Nat)
    (g' : Game) (w : Option Nat)
    (h : callNumberRoute g u n now = Except.ok (g', w))
    (hwin : checkWinCondition g' g'.creatorBoard g'.calledNumbers = true) :
    w = some g.creator := by
  obtain ⟨g1, hcall, -, -, -, -, hw, hg'⟩ := callNumberRoute_ok_elim h
  by_cases hcw : checkWinCondition g1 g1.creatorBoard g1.calledNumbers
  · rw [hw]
    simp [hcw, (callNumber_true_fields hcall).1]
  · exfalso
    subst hg'
    rw [preSave_win_eval] at hwin
    simp only [hcw, if_false, Bool.false_eq_true] at hwin
    by_cases how : checkWinCondition g1 g1.opponentBoard g1.calledNumbers
    · simp only [how, if_true] at hwin
      rw [endGame_win_eval] at hwin
      exact hcw hwin
    · simp only [how, Bool.false_eq_true, if_false] at hwin
      exact hcw hwin

/-- The 23 numbers of `stdBoard` other than 25, all already called. -/
def calledAllBut25 : List Int :=
  [1, 2, 3, 4, 5, 6, 7, 8, 9, 10, 11, 12, 14, 15,
   16, 17, 18, 19, 20, 21, 22, 23, 24]

/-- An active session one call away from full coverage, creator to move. -/
def gAlmostWonCreator : Game :=
  { gFresh with calledNumbers := calledAllBut25, currentTurn := Turn.creator }

/-- An active session one call away from full coverage, opponent to move. -/
def gAlmostWonOpponent : Game :=
  { gFresh with calledNumbers := calledAllBut25, currentTurn := Turn.opponent }

/-- The session saved by the route after the creator calls 25 on
`gAlmostWonCreator`. -/
def gWonResult : Game :=
  { gFresh with
    calledNumbers := calledAllBut25 ++ [25]
    currentTurn := Turn.opponent
    lastCalledNumber := some 25
    lastCalledBy := some 1
    creatorCompletedLines := 5
    opponentCompletedLines := 5
    status := Status.completed
    winner := some 1
    completedAt := some 100
    duration := some 0 }

/-- Concrete run of `winner_creator_first`: the creator calls the last
number and is reported winner. -/
theorem winner_creator_first_witness :
    (some 1 : Option Nat) = some gAlmostWonCreator.creator :=
  winner_creator_first gAlmostWonCreator 1 25 100 gWonResult (some 1)
    rfl (by decide)

/-- C8 is false as stated: the opponent (user 2) makes the winning call on
their turn, both boards (a shared board) satisfy the win condition, yet the
reported winner is the creator (user 1), not the acting participant. -/
theorem winner_creator_first_counterexample :
    isUserTurn gAlmostWonOpponent 2 = true ∧
    gAlmostWonOpponent.creator = 1 ∧ gAlmostWonOpponent.opponent = 2 ∧
    ((callNumberRoute gAlmostWonOpponent 2 25 100).toOption.map fun r =>
      checkWinCondition r.1 r.1.creatorBoard r.1.calledNumbers) = some true ∧
    ((callNumberRoute gAlmostWonOpponent 2 25 100).toOption.map fun r =>
      checkWinCondition r.1 r.1.opponentBoard r.1.calledNumbers) = some true ∧
    ((callNumberRoute gAlmostWonOpponent 2 25 100).toOption.map Prod.snd) =
      some (some 1) := by
  refine ⟨by decide, rfl, rfl, by decide, by decide, by decide⟩

/-- Extracting the element at `m` in front of a `set` at `m` permutes a
cons to the front. -/
lemma cons_set_perm (t : List Int) (m : Nat) (a : Int) (hm : m < t.length) :
    List.Perm (t.getD m 0 :: t.set m a) (a :: t) := by
  induction t generalizing m with
  | nil => simp at hm
  | cons b s ih =>
    cases m with
    | zero =>
      simpa using List.Perm.swap a b s
    | succ k =>
      have hk : k < s.length := by simpa using hm
      calc
        List.Perm (s.getD k 0 :: b :: s.set k a)
            (b :: s.getD k 0 :: s.set k a) := List.Perm.swap b _ _
        _ = _ := rfl
        List.Perm _ (b :: a :: s) := (ih k hk).cons b
        List.Perm _ (a :: b :: s) := List.Perm.swap a b s

/-- A Fisher-Yates swap is a permutation. -/
lemma listSwap_perm (l : List Int) (i j : Nat) (hi : i < l.length)
    (hj : j < l.length) : List.Perm (listSwap l i j) l := by
  induction l generalizing i j with
  | nil => simp at hi
  | cons a t ih =>
    cases i with
    | zero =>
      cases j with
      | zero =>
        simp [listSwap]
      | succ m =>
        have hm : m < t.length := by simpa using hj
        simpa [listSwap] using cons_set_perm t m a hm
    | succ k =>
      cases j with
      | zero =>
        have hk : k < t.length := by simpa using hi
        simpa [listSwap] using cons_set_perm t k a hk
      | succ m =>
        have hk : k < t.length := by simpa using hi
        have hm : m < t.length := by simpa using hj
        simpa [listSwap] using (ih k m hk hm).cons a

/-- The whole shuffle loop is a permutation. -/
lemma shuffleAux_perm (rand : Nat → Nat) (k : Nat) :
    ∀ l : List Int, k < l.length → List.Perm (shuffleAux rand l k) l := by
  induction k with
  | zero =>
    intro l _
    exact List.Perm.refl l
  | succ k ih =>
    intro l hk
    have hj : rand (k + 1) % (k + 2) < l.length :=
      Nat.lt_of_le_of_lt
        (Nat.lt_succ_iff.mp (Nat.mod_lt _ (by omega))) hk
    have hswap : List.Perm (listSwap l (k + 1) (rand (k + 1) % (k + 2))) l :=
      listSwap_perm l (k + 1) _ hk hj
    have hlen : (listSwap l (k + 1) (rand (k + 1) % (k + 2))).length =
        l.length := by
      simp [listSwap]
    exact (ih _ (by omega)).trans hswap

/-- The shuffled pool is a permutation of the 24-number pool. -/
lemma shuffledNumbers_perm (rand : Nat → Nat) :
    List.Perm (shuffledNumbers rand) allNumbers :=
  shuffleAux_perm rand 23 allNumbers (by decide)

lemma shuffledNumbers_length (rand : Nat → Nat) :
    (shuffledNumbers rand).length = 24 := by
  rw [(shuffledNumbers_perm rand).length_eq]
  decide

lemma shuffledNumbers_nodup (rand : Nat → Nat) :
    (shuffledNumbers rand).Nodup :=
  ((shuffledNumbers_perm rand).nodup_iff).mpr (by decide)

lemma shuffledNumbers_mem (rand : Nat → Nat) (x : Int)
    (h : x ∈ shuffledNumbers rand) : 1 ≤ x ∧ x ≤ 25 ∧ x ≠ 13 := by
  have hall : ∀ y ∈ allNumbers, 1 ≤ y ∧ y ≤ 25 ∧ y ≠ 13 := by decide
  exact hall x ((shuffledNumbers_perm rand).mem_iff.mp h)

/-- On a duplicate-free list, equal in-bounds `getD` reads force equal
indices. -/
lemma nodup_getD_inj {l : List Int} (h : l.Nodup) {a b : Nat}
    (ha : a < l.length) (hb : b < l.length)
    (heq : l.getD a 0 = l.getD b 0) : a = b := by
  rw [List.getD_eq_getElem l 0 ha, List.getD_eq_getElem l 0 hb] at heq
  exact (List.Nodup.getElem_inj_iff h).mp heq

/-- Closed form for a generated board cell: the FREE center, and elsewhere
the shuffled pool read at the running row-major index. -/
lemma cellAt_generateBingoBoard (rand : Nat → Nat) (i j : Nat)
    (hi : i < 5) (hj : j < 5) :
    cellAt (generateBingoBoard rand) i j =
      if i = 2 ∧ j = 2 then Cell.free
      else Cell.num ((shuffledNumbers rand).getD
        (if 5 * i + j < 12 then 5 * i + j else 5 * i + j - 1) 0) := by
  interval_cases i <;> interval_cases j <;> rfl

/-- C10: a generated board is 5 by 5, its center cell is FREE, every other
cell is a number between 1 and 25 other than 13 (so never 13 and never a
FREE cell outside the center), and no two distinct cells hold the same
value, whatever the random draws. -/
theorem generateBingoBoard_spec (rand : Nat → Nat) :
    (generateBingoBoard rand).length = 5 ∧
    (∀ i, i < 5 → ((generateBingoBoard rand).getD i []).length = 5) ∧
    cellAt (generateBingoBoard rand) 2 2 = Cell.free ∧
    (∀ i j, i < 5 → j < 5 → ¬(i = 2 ∧ j = 2) →
      ∃ n : Int, cellAt (generateBingoBoard rand) i j = Cell.num n ∧
        1 ≤ n ∧ n ≤ 25 ∧ n ≠ 13) ∧
    (∀ i j i2 j2, i < 5 → j < 5 → i2 < 5 → j2 < 5 →
      ¬(i = 2 ∧ j = 2) → ¬(i2 = 2 ∧ j2 = 2) →
      cellAt (generateBingoBoard rand) i j =
        cellAt (generateBingoBoard rand) i2 j2 →
      i = i2 ∧ j = j2) := by
  refine ⟨rfl, ?_, rfl, ?_, ?_⟩
  · intro i hi
    interval_cases i <;> rfl
  · intro i j hi hj hc
    rw [cellAt_generateBingoBoard rand i j hi hj]
    simp only [hc, if_false]
    have hklt : (if 5 * i + j < 12 then 5 * i + j else 5 * i + j - 1) < 24 := by
      split <;> omega
    refine ⟨_, rfl, ?_⟩
    apply shuffledNumbers_mem
    rw [List.getD_eq_getElem _ 0 (by rw [shuffledNumbers_length]; exact hklt)]
    exact List.getElem_mem _
  · intro i j i2 j2 hi hj hi2 hj2 hc hc2 heq
    rw [cellAt_generateBingoBoard rand i j hi hj,
      cellAt_generateBingoBoard rand i2 j2 hi2 hj2] at heq
    simp only [hc, hc2, if_false, Cell.num.injEq] at heq
    have hk1 : (if 5 * i + j < 12 then 5 * i + j else 5 * i + j - 1) < 24 := by
      split <;> omega
    have hk2 : (if 5 * i2 + j2 < 12 then 5 * i2 + j2
        else 5 * i2 + j2 - 1) < 24 := by
      split <;> omega
    have hkk := nodup_getD_inj (shuffledNumbers_nodup rand)
      (by rw [shuffledNumbers_length]; exact hk1)
      (by rw [shuffledNumbers_length]; exact hk2) heq
    have hsum : 5 * i + j = 5 * i2 + j2 := by
      split_ifs at hkk <;> omega
    exact ⟨by omega, by omega⟩

/-- Concrete run of `generateBingoBoard_spec` with the constant-zero random
stream. -/
theorem generateBingoBoard_spec_witness :
    ((generateBingoBoard fun _ => 0).getD 3 []).length = 5 ∧
    (∃ n : Int, cellAt (generateBingoBoard fun _ => 0) 1 4 = Cell.num n ∧
      1 ≤ n ∧ n ≤ 25 ∧ n ≠ 13) ∧
    ((0 : Nat) = 0 ∧ (0 : Nat) = 0) :=
  ⟨(generateBingoBoard_spec fun _ => 0).2.1 3 (by decide),
   (generateBingoBoard_spec fun _ => 0).2.2.2.1 1 4 (by decide) (by decide)
     (by decide),
   (generateBingoBoard_spec fun _ => 0).2.2.2.2 0 0 0 0 (by decide)
     (by decide) (by decide) (by decide) (by decide) (by decide) rfl⟩

end Bingo
